import Mathlib

-- Shallow embedding of src/netaccess.py: a network connectivity probe
-- service with an HTTP dispatcher (check_connection) and three protocol
-- probe handlers (handle_http, handle_imap, handle_smtp).
--
-- Network and library effects are modelled by oracles (the outcome the
-- underlying client/library would deliver) and by an explicit trace of
-- observable actions (NetEvent), so that "no network activity" is the
-- emptiness of the trace. Machine floats (timeout values) are modelled
-- as Rat: no arithmetic is ever performed on them, they only flow
-- through. Python exceptions are modelled as Except values; an
-- exception that escapes the dispatcher is the DispatchOutcome.raised
-- constructor.

set_option autoImplicit false

namespace NetAccess

/-- A JSON-like value of an untyped inbound payload field (the values a
`dict[str, Any]` parsed from a JSON body can hold, restricted to the
scalar shapes the request models use). -/
inductive Value where
  | vStr (s : String)
  | vInt (n : Int)
  | vNum (q : Rat)
  | vBool (b : Bool)
  | vNull
  deriving DecidableEq, Repr

/-- The untyped inbound payload `data : dict[str, Any]`: an association
list of field names to values (a Python dict has unique keys; lookup
takes the first binding). -/
abbrev Payload : Type := List (String × Value)

/-- Embeds `data.get(name)`: the value of a field, if present. -/
def getField (data : Payload) (name : String) : Option Value :=
  (data.find? (fun kv => kv.1 = name)).map (fun kv => kv.2)

/-- Embeds Python `str.upper()` (the repository only ever upper-cases
ASCII type tags such as "http"). -/
def pyUpper (s : String) : String := String.mk (s.data.map Char.toUpper)

/-- Embeds Python `str.lower()` on the ASCII strings pydantic's lax bool
validator compares against. -/
def pyLower (s : String) : String := String.mk (s.data.map Char.toLower)

/-- Digits of a decimal numeral: `some` of its value when the character
list is nonempty and all ASCII digits. -/
def parseDigits : List Char → Option Nat
  | [] => none
  | cs =>
    if cs.all Char.isDigit then
      some (cs.foldl (fun a c => a * 10 + (c.toNat - 48)) 0)
    else
      none

/-- Embeds pydantic's lax str-to-int coercion: an optionally signed
ASCII digit string (surrounding whitespace stripped). -/
def parseIntStr (s : String) : Option Int :=
  match s.trim.data with
  | '-' :: rest => (parseDigits rest).map (fun n => -(n : Int))
  | '+' :: rest => (parseDigits rest).map (fun n => (n : Int))
  | cs => (parseDigits cs).map (fun n => (n : Int))

/-- Embeds pydantic's lax str-to-float coercion for the decimal numerals
`digits` and `digits.digits`, optionally signed, whitespace stripped. -/
def parseRatStr (s : String) : Option Rat :=
  let signed : List Char → Option Rat := fun cs =>
    match cs.span (fun c => c != '.') with
    | (ip, []) => (parseDigits ip).map (fun n => (n : Rat))
    | (ip, _ :: fp) =>
      match parseDigits ip, parseDigits fp with
      | some n, some f => some ((n : Rat) + (f : Rat) / ((10 : Rat) ^ fp.length))
      | _, _ => none
  match s.trim.data with
  | '-' :: rest => (signed rest).map (fun q => -q)
  | '+' :: rest => signed rest
  | cs => signed cs

/-- Embeds pydantic lax validation of a `str` field: only a JSON string
is accepted. -/
def validateStr : Value → Except String String
  | .vStr s => .ok s
  | _ => .error "Input should be a valid string"

/-- Embeds pydantic lax validation of an `int` field: an int, an
integral float, or an integer numeral string; bool and null are
rejected. -/
def validateInt : Value → Except String Int
  | .vInt n => .ok n
  | .vNum q => if q.den = 1 then .ok q.num else .error "Input should be a valid integer, got a number with a fractional part"
  | .vStr s =>
    match parseIntStr s with
    | some n => .ok n
    | none => .error "Input should be a valid integer, unable to parse string as an integer"
  | _ => .error "Input should be a valid integer"

/-- Embeds pydantic lax validation of a `float` field: a float, an int,
or a decimal numeral string; bool and null are rejected. -/
def validateFloat : Value → Except String Rat
  | .vNum q => .ok q
  | .vInt n => .ok (n : Rat)
  | .vStr s =>
    match parseRatStr s with
    | some q => .ok q
    | none => .error "Input should be a valid number, unable to parse string as a number"
  | _ => .error "Input should be a valid number"

/-- String spellings pydantic's lax bool validator accepts as true. -/
def boolTrueStrings : List String := ["true", "t", "yes", "y", "on", "1"]

/-- String spellings pydantic's lax bool validator accepts as false. -/
def boolFalseStrings : List String := ["false", "f", "no", "n", "off", "0"]

/-- Embeds pydantic lax validation of a `bool` field: a bool, the ints
0/1, the floats 0.0/1.0, or a recognized case-insensitive string. -/
def validateBool : Value → Except String Bool
  | .vBool b => .ok b
  | .vInt n => if n = 1 then .ok true else if n = 0 then .ok false else .error "Input should be a valid boolean"
  | .vNum q => if q = 1 then .ok true else if q = 0 then .ok false else .error "Input should be a valid boolean"
  | .vStr s =>
    if boolTrueStrings.contains (pyLower s) then .ok true
    else if boolFalseStrings.contains (pyLower s) then .ok false
    else .error "Input should be a valid boolean, unable to interpret input"
  | .vNull => .error "Input should be a valid boolean"

/-- Embeds pydantic validation of a `str | None` field: a string, or
null (giving `none`). -/
def validateOptStr : Value → Except String (Option String)
  | .vStr s => .ok (some s)
  | .vNull => .ok none
  | _ => .error "Input should be a valid string"

/-- Validation of a required model field: absence is a validation error
(pydantic "Field required"); a present value runs the field validator.
The model and field names are threaded into the error text. -/
def reqField {α : Type} (data : Payload) (model name : String)
    (v : Value → Except String α) : Except String α :=
  match getField data name with
  | none => .error ("validation error for " ++ model ++ ": " ++ name ++ ": Field required")
  | some x =>
    match v x with
    | .ok a => .ok a
    | .error e => .error ("validation error for " ++ model ++ ": " ++ name ++ ": " ++ e)

/-- Validation of an optional model field: absence yields the declared
default; a present value runs the field validator. Extra payload fields
outside the declared set are simply never looked at (pydantic's default
"ignore extra" behavior). -/
def optField {α : Type} (data : Payload) (model name : String)
    (v : Value → Except String α) (dflt : α) : Except String α :=
  match getField data name with
  | none => .ok dflt
  | some x =>
    match v x with
    | .ok a => .ok a
    | .error e => .error ("validation error for " ++ model ++ ": " ++ name ++ ": " ++ e)

/-- The pydantic model `CheckRequestHTTP` of src/netaccess.py. -/
structure CheckRequestHTTP where
  type : String
  address : String
  port : Int
  timeout : Rat
  method : String
  ssl : Bool
  deriving DecidableEq, Repr

/-- Embeds `CheckRequestHTTP(**data)`: field-by-field validation with
the source's defaults (`type="HTTP"`, `timeout=5.0`, `method="GET"`,
`ssl=False`); `address` and `port` are required. An `.error` is the
pydantic ValidationError the constructor raises. -/
def CheckRequestHTTP.fromPayload (data : Payload) : Except String CheckRequestHTTP := do
  let type ← optField data "CheckRequestHTTP" "type" validateStr "HTTP"
  let address ← reqField data "CheckRequestHTTP" "address" validateStr
  let port ← reqField data "CheckRequestHTTP" "port" validateInt
  let timeout ← optField data "CheckRequestHTTP" "timeout" validateFloat 5
  let method ← optField data "CheckRequestHTTP" "method" validateStr "GET"
  let ssl ← optField data "CheckRequestHTTP" "ssl" validateBool false
  return { type := type, address := address, port := port,
           timeout := timeout, method := method, ssl := ssl }

/-- The pydantic model `CheckRequestIMAP` of src/netaccess.py. -/
structure CheckRequestIMAP where
  type : String
  host : String
  port : Int
  ssl : Bool
  timeout : Rat
  username : Option String
  password : Option String
  deriving DecidableEq, Repr

/-- Embeds `CheckRequestIMAP(**data)`: the source's defaults are
`type="IMAP"`, `ssl=True`, `timeout=5.0`, `username=None`,
`password=None`; `host` and `port` are required. -/
def CheckRequestIMAP.fromPayload (data : Payload) : Except String CheckRequestIMAP := do
  let type ← optField data "CheckRequestIMAP" "type" validateStr "IMAP"
  let host ← reqField data "CheckRequestIMAP" "host" validateStr
  let port ← reqField data "CheckRequestIMAP" "port" validateInt
  let ssl ← optField data "CheckRequestIMAP" "ssl" validateBool true
  let timeout ← optField data "CheckRequestIMAP" "timeout" validateFloat 5
  let username ← optField data "CheckRequestIMAP" "username" validateOptStr none
  let password ← optField data "CheckRequestIMAP" "password" validateOptStr none
  return { type := type, host := host, port := port, ssl := ssl,
           timeout := timeout, username := username, password := password }

/-- The pydantic model `CheckRequestSMTP` of src/netaccess.py. -/
structure CheckRequestSMTP where
  type : String
  host : String
  port : Int
  timeout : Rat
  use_tls : Bool
  start_tls : Bool
  validate_certs : Bool
  username : Option String
  password : Option String
  deriving DecidableEq, Repr

/-- Embeds `CheckRequestSMTP(**data)`: the source's defaults are
`type="SMTP"`, `timeout=5.0`, `use_tls=False`, `start_tls=False`,
`validate_certs=True`, `username=None`, `password=None`; `host` and
`port` are required. -/
def CheckRequestSMTP.fromPayload (data : Payload) : Except String CheckRequestSMTP := do
  let type ← optField data "CheckRequestSMTP" "type" validateStr "SMTP"
  let host ← reqField data "CheckRequestSMTP" "host" validateStr
  let port ← reqField data "CheckRequestSMTP" "port" validateInt
  let timeout ← optField data "CheckRequestSMTP" "timeout" validateFloat 5
  let use_tls ← optField data "CheckRequestSMTP" "use_tls" validateBool false
  let start_tls ← optField data "CheckRequestSMTP" "start_tls" validateBool false
  let validate_certs ← optField data "CheckRequestSMTP" "validate_certs" validateBool true
  let username ← optField data "CheckRequestSMTP" "username" validateOptStr none
  let password ← optField data "CheckRequestSMTP" "password" validateOptStr none
  return { type := type, host := host, port := port, timeout := timeout,
           use_tls := use_tls, start_tls := start_tls,
           validate_certs := validate_certs,
           username := username, password := password }

/-- The value of one field of a returned JSON envelope. -/
inductive JVal where
  | s (v : String)
  | i (v : Int)
  | b (v : Bool)
  | strMap (v : List (String × String))
  deriving DecidableEq, Repr

/-- A returned JSON envelope: the dict literal a handler returns, as an
ordered list of field bindings. -/
abbrev Envelope : Type := List (String × JVal)

/-- The value of an envelope field, if present. -/
def lookupJ (env : Envelope) (name : String) : Option JVal :=
  (env.find? (fun kv => kv.1 = name)).map (fun kv => kv.2)

/-- The `ssl.VerifyMode` values the source uses. -/
inductive VerifyMode where
  | CERT_REQUIRED
  | CERT_NONE
  deriving DecidableEq, Repr

/-- The observable part of an `ssl.SSLContext`: the two attributes the
source reads or writes. -/
structure SSLContext where
  check_hostname : Bool
  verify_mode : VerifyMode
  deriving DecidableEq, Repr

/-- Embeds `ssl.create_default_context()`: hostname checking on, peer
certificates required. -/
def ssl_create_default_context : SSLContext :=
  { check_hostname := true, verify_mode := .CERT_REQUIRED }

/-- An observable action of a probe execution, in order. Network
activity and client/TLS-context construction are all recorded here, so
"no network activity" is the emptiness of the trace. -/
inductive NetEvent where
  | httpRequest (method url : String) (timeout : Rat)
  | imapConnect (host : String) (port : Int) (ssl : Bool)
  | imapHello
  | imapLogin (username password : Option String)
  | imapLogout
  | smtpBuildCtx (ctx : SSLContext)
  | smtpConnect (host : String) (port : Int) (use_tls : Bool) (ctx : SSLContext)
  | smtpStarttls (ctx : SSLContext)
  | smtpLogin (username password : Option String)
  | smtpQuit
  deriving DecidableEq, Repr

/-- The TLS context an event carries, when it carries one. -/
def ctxOf : NetEvent → Option SSLContext
  | .smtpBuildCtx c => some c
  | .smtpConnect _ _ _ c => some c
  | .smtpStarttls c => some c
  | _ => none

/-- All TLS contexts appearing in a trace. -/
def ctxsOf (tr : List NetEvent) : List SSLContext :=
  tr.filterMap ctxOf

/-- Whether a trace contains a login attempt (IMAP or SMTP). -/
def attemptsLogin (tr : List NetEvent) : Bool :=
  tr.any (fun e =>
    match e with
    | .imapLogin _ _ => true
    | .smtpLogin _ _ => true
    | _ => false)

/-- Embeds Python truthiness of a `str | None` value, as tested by
`if data.username and data.password:`: `None` and the empty string are
falsy, every other string is truthy. -/
def pyTruthy : Option String → Bool
  | none => false
  | some s => !s.isEmpty

/-- The outcome the httpx client delivers for the single request: either
a complete HTTP response (status code, headers, body text) or a raised
exception (connection error, timeout, TLS error, malformed response),
carried as its message. -/
inductive HttpResult where
  | response (code : Int) (headers : List (String × String)) (body : String)
  | raise (msg : String)
  deriving DecidableEq, Repr

/-- The outcomes the aioimaplib client delivers for each step of the
IMAP probe: client construction/connection, the server greeting wait,
login, and logout. An `.error` is a raised exception (including
`asyncio.TimeoutError` from `wait_for`), carried as its message. -/
structure ImapOracle where
  connect : Except String Unit
  hello : Except String Unit
  login : Except String Unit
  logout : Except String Unit
  deriving Repr

/-- The greeting message value aiosmtplib's connect returns: the source
defensively handles both bytes and str. -/
inductive SmtpMsg where
  | bytes (bs : List Nat)
  | pystr (s : String)
  deriving DecidableEq, Repr

/-- The outcomes the aiosmtplib client delivers for each step of the
SMTP probe: connect (delivering the greeting code and message),
STARTTLS upgrade, login, and quit. An `.error` is a raised exception,
carried as its message. -/
structure SmtpOracle where
  connect : Except String (Int × SmtpMsg)
  starttls : Except String Unit
  login : Except String Unit
  quit : Except String Unit
  deriving Repr

/-- The three per-protocol oracles a dispatch may consult. -/
structure Oracles where
  http : HttpResult
  imap : ImapOracle
  smtp : SmtpOracle
  deriving Repr

/-- Whether a byte is a UTF-8 continuation byte (0x80..0xBF). -/
def utf8Cont (b : Nat) : Bool := 128 ≤ b && b ≤ 191

/-- Fuel-driven worker for `utf8DecodeIgnore`: decodes one UTF-8
sequence per step, dropping the leading byte of any invalid sequence
(which reproduces CPython's "ignore" error handling, since the dropped
continuation bytes are themselves invalid as leads and are dropped in
turn). The fuel is an upper bound on the byte count; each step consumes
at least one byte. -/
def utf8DecodeAux : Nat → List Nat → List Char
  | 0, _ => []
  | _ + 1, [] => []
  | fuel + 1, b :: rest =>
    if b ≤ 127 then
      Char.ofNat b :: utf8DecodeAux fuel rest
    else if 194 ≤ b && b ≤ 223 then
      match rest with
      | b2 :: r2 =>
        if utf8Cont b2 then
          Char.ofNat ((b - 192) * 64 + (b2 - 128)) :: utf8DecodeAux fuel r2
        else
          utf8DecodeAux fuel rest
      | [] => []
    else if 224 ≤ b && b ≤ 239 then
      match rest with
      | b2 :: b3 :: r3 =>
        let lo2 := if b = 224 then 160 else 128
        let hi2 := if b = 237 then 159 else 191
        if (lo2 ≤ b2 && b2 ≤ hi2) && utf8Cont b3 then
          Char.ofNat ((b - 224) * 4096 + (b2 - 128) * 64 + (b3 - 128)) :: utf8DecodeAux fuel r3
        else
          utf8DecodeAux fuel rest
      | _ => utf8DecodeAux fuel rest
    else if 240 ≤ b && b ≤ 244 then
      match rest with
      | b2 :: b3 :: b4 :: r4 =>
        let lo2 := if b = 240 then 144 else 128
        let hi2 := if b = 244 then 143 else 191
        if (lo2 ≤ b2 && b2 ≤ hi2) && (utf8Cont b3 && utf8Cont b4) then
          Char.ofNat ((b - 240) * 262144 + (b2 - 128) * 4096 + (b3 - 128) * 64 + (b4 - 128)) :: utf8DecodeAux fuel r4
        else
          utf8DecodeAux fuel rest
      | _ => utf8DecodeAux fuel rest
    else
      utf8DecodeAux fuel rest

/-- Embeds `bytes.decode("utf-8", errors="ignore")`: best-effort UTF-8
decoding that silently drops invalid sequences. -/
def utf8DecodeIgnore (bs : List Nat) : String :=
  String.mk (utf8DecodeAux bs.length bs)

/-- Embeds the source's greeting-message normalization:
`msg.decode("utf-8", errors="ignore") if isinstance(msg, (bytes, bytearray)) else str(msg)`. -/
def smtpMsgDecode : SmtpMsg → String
  | .bytes bs => utf8DecodeIgnore bs
  | .pystr s => s

/-- Embeds the local `protocol` computation of `handle_http`:
`"https" if (data.port == 443 or data.ssl) else "http"`. -/
def protocolOf (data : CheckRequestHTTP) : String :=
  if data.port == 443 || data.ssl then "https" else "http"

/-- Embeds `handle_http` of src/netaccess.py: build the scheme and URL,
issue the single request (the one network action), and return the
success envelope on a complete response or the failure envelope when
the request raises. -/
def handle_http (data : CheckRequestHTTP) (net : HttpResult) :
    Envelope × List NetEvent :=
  let protocol := protocolOf data
  let url := protocol ++ "://" ++ data.address ++ ":" ++ toString data.port
  let ev := [NetEvent.httpRequest (pyUpper data.method) url data.timeout]
  match net with
  | .response code headers body =>
    ([("status", .s "success"), ("protocol", .s protocol), ("type", .s data.type),
      ("code", .i code), ("headers", .strMap headers), ("body", .s body)], ev)
  | .raise msg =>
    ([("status", .s "fail"), ("type", .s data.type), ("error", .s msg)], ev)

/-- The failure envelope `{"status": "fail", "type": data.type, "error": str(e)}`
shared by the three handlers' except-clauses. -/
def failEnv (type e : String) : Envelope :=
  [("status", .s "fail"), ("type", .s type), ("error", .s e)]

/-- Embeds `handle_imap` of src/netaccess.py: construct the (plain or
TLS) client, wait for the server greeting, log in when both credentials
are truthy, then attempt a logout whose failure is swallowed by the
inner try/except; any exception in the earlier steps reaches the outer
except-clause and yields the failure envelope. -/
def handle_imap (data : CheckRequestIMAP) (net : ImapOracle) :
    Envelope × List NetEvent :=
  let successEnv : Envelope :=
    [("status", .s "success"), ("type", .s data.type),
     ("protocol", .s ("imap" ++ (if data.ssl then "s" else ""))),
     ("message", .s "IMAP connected!")]
  let ev0 := [NetEvent.imapConnect data.host data.port data.ssl]
  match net.connect with
  | .error e => (failEnv data.type e, ev0)
  | .ok _ =>
    let ev1 := ev0 ++ [NetEvent.imapHello]
    match net.hello with
    | .error e => (failEnv data.type e, ev1)
    | .ok _ =>
      if pyTruthy data.username && pyTruthy data.password then
        let ev2 := ev1 ++ [NetEvent.imapLogin data.username data.password]
        match net.login with
        | .error e => (failEnv data.type e, ev2)
        | .ok _ => (successEnv, ev2 ++ [NetEvent.imapLogout])
      else
        (successEnv, ev1 ++ [NetEvent.imapLogout])

/-- Embeds `handle_smtp` of src/netaccess.py: the mode-conflict
pre-check returns before anything is built or contacted; otherwise the
TLS context is built (relaxed when certificate validation is off), the
client connects capturing the greeting, optionally upgrades via
STARTTLS, optionally logs in, quits, and returns the success payload;
any exception inside the try-block yields the failure envelope. -/
def handle_smtp (data : CheckRequestSMTP) (net : SmtpOracle) :
    Envelope × List NetEvent :=
  if data.use_tls && data.start_tls then
    ([("status", .s "fail"), ("type", .s data.type),
      ("error", .s "Нельзя одновременно use_tls=True и start_tls=True. Выберите один режим.")], [])
  else
    let tls_ctx :=
      if data.validate_certs then ssl_create_default_context
      else { ssl_create_default_context with check_hostname := false, verify_mode := .CERT_NONE }
    let ev0 := [NetEvent.smtpBuildCtx tls_ctx,
                NetEvent.smtpConnect data.host data.port data.use_tls tls_ctx]
    match net.connect with
    | .error e => (failEnv data.type e, ev0)
    | .ok (code, msg) =>
      let afterStart : List NetEvent → Envelope × List NetEvent := fun evs =>
        let evsLogin :=
          if pyTruthy data.username && pyTruthy data.password then
            evs ++ [NetEvent.smtpLogin data.username data.password]
          else
            evs
        let loginRes :=
          if pyTruthy data.username && pyTruthy data.password then net.login
          else .ok ()
        match loginRes with
        | .error e => (failEnv data.type e, evsLogin)
        | .ok _ =>
          let evsQuit := evsLogin ++ [NetEvent.smtpQuit]
          match net.quit with
          | .error e => (failEnv data.type e, evsQuit)
          | .ok _ =>
            ([("status", .s "success"), ("type", .s data.type),
              ("protocol", .s "smtp"),
              ("greeting_code", .i code),
              ("greeting_message", .s (smtpMsgDecode msg)),
              ("mode", .s (if data.use_tls then "SMTPS"
                           else if data.start_tls then "SMTP+STARTTLS" else "PLAIN")),
              ("validate_certs", .b data.validate_certs)], evsQuit)
      if data.start_tls then
        let ev1 := ev0 ++ [NetEvent.smtpStarttls tls_ctx]
        match net.starttls with
        | .error e => (failEnv data.type e, ev1)
        | .ok _ => afterStart ev1
      else
        afterStart ev0

/-- The outcome of a call to the dispatch endpoint: either a returned
envelope together with the trace of observable actions, or an exception
that escapes `check_connection` to the transport layer (FastAPI). -/
inductive DispatchOutcome where
  | envelope (env : Envelope) (trace : List NetEvent)
  | raised (err : String)
  deriving DecidableEq, Repr

/-- Embeds `data.get("type", "HTTP").upper()`: the default when the
field is absent, then upper-casing; a non-string value has no `.upper`
attribute and raises. -/
def getTypeUpper (data : Payload) : Except String String :=
  match getField data "type" with
  | none => .ok "HTTP"
  | some (.vStr s) => .ok (pyUpper s)
  | some _ => .error "AttributeError: object has no attribute upper"

/-- The HTTP branch of `check_connection`: construct `CheckRequestHTTP`
from the raw payload (an uncaught ValidationError escapes) and run
`handle_http`. -/
def dispatchHTTP (data : Payload) (net : HttpResult) : DispatchOutcome :=
  match CheckRequestHTTP.fromPayload data with
  | .error e => .raised e
  | .ok req =>
    let r := handle_http req net
    .envelope r.1 r.2

/-- The IMAP branch of `check_connection`: construct `CheckRequestIMAP`
from the raw payload (an uncaught ValidationError escapes) and run
`handle_imap`. -/
def dispatchIMAP (data : Payload) (net : ImapOracle) : DispatchOutcome :=
  match CheckRequestIMAP.fromPayload data with
  | .error e => .raised e
  | .ok req =>
    let r := handle_imap req net
    .envelope r.1 r.2

/-- The SMTP branch of `check_connection`: construct `CheckRequestSMTP`
from the raw payload (an uncaught ValidationError escapes) and run
`handle_smtp`. -/
def dispatchSMTP (data : Payload) (net : SmtpOracle) : DispatchOutcome :=
  match CheckRequestSMTP.fromPayload data with
  | .error e => .raised e
  | .ok req =>
    let r := handle_smtp req net
    .envelope r.1 r.2

/-- Embeds `check_connection` of src/netaccess.py: read and upper-case
the `type` field (default "HTTP"), dispatch to the matching branch, or
return the unsupported-type failure envelope with no probe constructed
and no action taken. No try/except surrounds the branches: whatever a
branch raises escapes. -/
def check_connection (data : Payload) (os : Oracles) : DispatchOutcome :=
  match getTypeUpper data with
  | .error e => .raised e
  | .ok type_ =>
    if type_ = "HTTP" then dispatchHTTP data os.http
    else if type_ = "IMAP" then dispatchIMAP data os.imap
    else if type_ = "SMTP" then dispatchSMTP data os.smtp
    else .envelope [("status", .s "fail"), ("error", .s ("Unsupported type " ++ type_))] []

/-- A fixed oracle assignment for concrete evaluations: which outcomes
the network would deliver is irrelevant wherever this is used. -/
def oracles0 : Oracles :=
  { http := .response 200 [("server", "nginx")] "ok"
    imap := { connect := .ok (), hello := .ok (), login := .ok (), logout := .ok () }
    smtp := { connect := .ok (220, .bytes [79, 75]), starttls := .ok (), login := .ok (), quit := .ok () } }

/-- A concrete HTTP request configuration for instantiations. -/
def req0http : CheckRequestHTTP :=
  { type := "HTTP", address := "example.com", port := 80,
    timeout := 5, method := "GET", ssl := false }

/-- A concrete SMTP request configuration (STARTTLS mode, certificate
validation on) for instantiations. -/
def req0smtp : CheckRequestSMTP :=
  { type := "SMTP", host := "mail.example.com", port := 587, timeout := 5,
    use_tls := false, start_tls := true, validate_certs := true,
    username := none, password := none }

/-- A concrete SMTP request configuration (STARTTLS mode, certificate
validation off) for instantiations. -/
def req1smtp : CheckRequestSMTP :=
  { type := "SMTP", host := "mail.example.com", port := 587, timeout := 5,
    use_tls := false, start_tls := true, validate_certs := false,
    username := none, password := none }

/-- A concrete all-successful SMTP oracle for instantiations. -/
def net0smtp : SmtpOracle :=
  { connect := .ok (220, .bytes [72, 105]), starttls := .ok (),
    login := .ok (), quit := .ok () }

/-- A concrete IMAP request whose username is the empty string: Python
truthiness makes it behave like an absent credential. -/
def req1c10 : CheckRequestIMAP :=
  { type := "IMAP", host := "imap.example.com", port := 993, ssl := true,
    timeout := 5, username := some "", password := some "pw" }

/-- A concrete plain-mode SMTP request with full credentials. -/
def req2c10 : CheckRequestSMTP :=
  { type := "SMTP", host := "mail.example.com", port := 25, timeout := 5,
    use_tls := false, start_tls := false, validate_certs := true,
    username := some "bob", password := some "pw" }

end NetAccess

namespace NetAccess

/-- C1 counterexample: on the concrete empty payload (dispatched as
HTTP, `address` and `port` missing) the dispatcher does not return a
failure envelope at all: the pydantic ValidationError escapes
`check_connection` as a raised fault reaching the transport layer. -/
theorem c1_counterexample_construction_failure_escapes :
    check_connection [] oracles0 =
      .raised "validation error for CheckRequestHTTP: address: Field required"
  ∧ (match check_connection [] oracles0 with
     | .envelope _ _ => False
     | .raised _ => True) :=
  ⟨rfl, trivial⟩

/-- C1 (amended): for every recognized probe type, a payload whose
typed-configuration construction fails makes `check_connection` raise
that validation error past the dispatch boundary — no failure envelope
is produced and no network action is taken (a raised outcome carries no
trace). -/
theorem c1_construction_failure_propagates_uncaught (data : Payload) (os : Oracles) (e : String) :
    (getTypeUpper data = .ok "HTTP" → CheckRequestHTTP.fromPayload data = .error e →
      check_connection data os = .raised e)
  ∧ (getTypeUpper data = .ok "IMAP" → CheckRequestIMAP.fromPayload data = .error e →
      check_connection data os = .raised e)
  ∧ (getTypeUpper data = .ok "SMTP" → CheckRequestSMTP.fromPayload data = .error e →
      check_connection data os = .raised e) := by
  refine ⟨fun ht hf => ?_, fun ht hf => ?_, fun ht hf => ?_⟩ <;>
    simp [check_connection, ht, dispatchHTTP, dispatchIMAP, dispatchSMTP, hf]

/-- C1 witness: a concrete HTTP payload missing `address` satisfies the
hypotheses of the amended theorem and the dispatcher raises. -/
theorem c1_witness_http_missing_address :
    getTypeUpper [("type", Value.vStr "HTTP"), ("port", Value.vInt 80)] = .ok "HTTP"
  ∧ CheckRequestHTTP.fromPayload [("type", Value.vStr "HTTP"), ("port", Value.vInt 80)] =
      .error "validation error for CheckRequestHTTP: address: Field required"
  ∧ check_connection [("type", Value.vStr "HTTP"), ("port", Value.vInt 80)] oracles0 =
      .raised "validation error for CheckRequestHTTP: address: Field required" :=
  ⟨rfl, rfl,
   (c1_construction_failure_propagates_uncaught
      [("type", Value.vStr "HTTP"), ("port", Value.vInt 80)] oracles0
      "validation error for CheckRequestHTTP: address: Field required").1 rfl rfl⟩

/-- C2: whenever the underlying client delivers a complete HTTP
response, the probe reports `status: success` with the response's
status code in `code`, for every code value; the failure envelope (with
the exception message and no `code` field) arises exactly when the
request raises. -/
theorem c2_http_response_is_probe_success (req : CheckRequestHTTP) (code : Int)
    (headers : List (String × String)) (body msg : String) :
    lookupJ (handle_http req (.response code headers body)).1 "status" = some (.s "success")
  ∧ lookupJ (handle_http req (.response code headers body)).1 "code" = some (.i code)
  ∧ lookupJ (handle_http req (.raise msg)).1 "status" = some (.s "fail")
  ∧ lookupJ (handle_http req (.raise msg)).1 "error" = some (.s msg)
  ∧ lookupJ (handle_http req (.raise msg)).1 "code" = none :=
  ⟨rfl, rfl, rfl, rfl, rfl⟩

/-- C3 counterexample: a dispatched SMTP request written with lowercase
`type: "smtp"` and both TLS modes set gets the mode-conflict failure
envelope whose `type` field is the raw `"smtp"`, not the claimed
`"SMTP"`. -/
theorem c3_counterexample_type_echoes_raw_case :
    check_connection [("type", Value.vStr "smtp"), ("host", Value.vStr "mail.example.com"),
                      ("port", Value.vInt 25), ("use_tls", Value.vBool true),
                      ("start_tls", Value.vBool true)] oracles0 =
      .envelope [("status", .s "fail"), ("type", .s "smtp"),
                 ("error", .s "Нельзя одновременно use_tls=True и start_tls=True. Выберите один режим.")] []
  ∧ lookupJ [("status", JVal.s "fail"), ("type", JVal.s "smtp"),
             ("error", JVal.s "Нельзя одновременно use_tls=True и start_tls=True. Выберите один режим.")]
        "type" ≠ some (JVal.s "SMTP") :=
  ⟨rfl, by decide⟩

/-- C3 (amended): an SMTP probe with both `use_tls` and `start_tls`
set returns immediately — empty action trace, so no network activity,
no TLS context and no client construction — the failure envelope with
the localized mode-conflict message, whose `type` field echoes the
request's raw `type` value (equal to "SMTP" only when supplied in that
exact case). -/
theorem c3_mode_conflict_immediate_failure (req : CheckRequestSMTP) (net : SmtpOracle)
    (h1 : req.use_tls = true) (h2 : req.start_tls = true) :
    handle_smtp req net =
      ([("status", .s "fail"), ("type", .s req.type),
        ("error", .s "Нельзя одновременно use_tls=True и start_tls=True. Выберите один режим.")], []) := by
  simp [handle_smtp, h1, h2]

/-- C3 witness: a concrete conflicting SMTP request with `type`
supplied as "SMTP" gets the conflict envelope with empty trace. -/
theorem c3_witness_mode_conflict :
    ({ req0smtp with use_tls := true, start_tls := true } : CheckRequestSMTP).use_tls = true
  ∧ handle_smtp { req0smtp with use_tls := true, start_tls := true } net0smtp =
      ([("status", .s "fail"), ("type", .s ({ req0smtp with use_tls := true, start_tls := true } : CheckRequestSMTP).type),
        ("error", .s "Нельзя одновременно use_tls=True и start_tls=True. Выберите один режим.")], []) :=
  ⟨rfl, c3_mode_conflict_immediate_failure { req0smtp with use_tls := true, start_tls := true } net0smtp rfl rfl⟩

/-- C4: once connect, greeting and (when both credentials are truthy)
login have succeeded, a logout failure is swallowed and the IMAP probe
still returns the success envelope; a fault raised at connect, greeting
or login instead yields the failure envelope. -/
theorem c4_imap_logout_failure_swallowed (req : CheckRequestIMAP) (u p e : String)
    (h l lo : Except String Unit)
    (hu : u.isEmpty = false) (hp : p.isEmpty = false) :
    ((handle_imap req { connect := .ok (), hello := .ok (), login := .ok (), logout := .error e }).1 =
      [("status", .s "success"), ("type", .s req.type),
       ("protocol", .s ("imap" ++ (if req.ssl then "s" else ""))),
       ("message", .s "IMAP connected!")])
  ∧ ((handle_imap req { connect := .error e, hello := h, login := l, logout := lo }).1 =
      failEnv req.type e)
  ∧ ((handle_imap req { connect := .ok (), hello := .error e, login := l, logout := lo }).1 =
      failEnv req.type e)
  ∧ ((handle_imap { req with username := some u, password := some p }
        { connect := .ok (), hello := .ok (), login := .error e, logout := lo }).1 =
      failEnv req.type e) := by
  refine ⟨?_, rfl, rfl, ?_⟩
  · by_cases hc : pyTruthy req.username && pyTruthy req.password <;>
      simp [handle_imap, hc]
  · simp [handle_imap, pyTruthy, hu, hp, failEnv]

/-- C4 witness: with correct credentials and a logout that raises a
timeout, the concrete probe still reports success. -/
theorem c4_witness_logout_failure :
    ("bob" : String).isEmpty = false
  ∧ (handle_imap { type := "IMAP", host := "imap.example.com", port := 993, ssl := true,
                   timeout := 5, username := some "bob", password := some "pw" }
       { connect := .ok (), hello := .ok (), login := .ok (), logout := .error "TimeoutError" }).1 =
      [("status", .s "success"), ("type", .s "IMAP"),
       ("protocol", .s ("imap" ++ (if true then "s" else ""))),
       ("message", .s "IMAP connected!")] :=
  ⟨rfl,
   (c4_imap_logout_failure_swallowed
      { type := "IMAP", host := "imap.example.com", port := 993, ssl := true,
        timeout := 5, username := some "bob", password := some "pw" }
      "bob" "pw" "TimeoutError" (.ok ()) (.ok ()) (.ok ()) rfl rfl).1⟩

/-- C5: the HTTP probe's scheme is "https" exactly when the port is 443
or the explicit ssl flag is set and "http" otherwise; the single
request goes to scheme://address:port with the configured method and
timeout, and the chosen scheme is echoed as `protocol` in the success
payload. -/
theorem c5_http_scheme_selection (req : CheckRequestHTTP) (code : Int)
    (headers : List (String × String)) (body : String) (net : HttpResult) :
    (protocolOf req = "https" ↔ (req.port = 443 ∨ req.ssl = true))
  ∧ (protocolOf req = "https" ∨ protocolOf req = "http")
  ∧ (handle_http req net).2 =
      [NetEvent.httpRequest (pyUpper req.method)
        (protocolOf req ++ "://" ++ req.address ++ ":" ++ toString req.port) req.timeout]
  ∧ lookupJ (handle_http req (.response code headers body)).1 "protocol" =
      some (.s (protocolOf req)) := by
  refine ⟨?_, ?_, ?_, rfl⟩
  · unfold protocolOf
    by_cases hc : (req.port == 443 || req.ssl) = true
    · simp only [hc, if_true]
      simp only [Bool.or_eq_true, beq_iff_eq] at hc
      simp [hc]
    · simp only [hc, if_false]
      simp only [Bool.or_eq_true, beq_iff_eq, not_or] at hc
      constructor
      · intro habs
        exact absurd habs (by decide)
      · rintro (h443 | hssl)
        · exact absurd h443 hc.1
        · exact absurd hssl (by simpa using hc.2)
  · unfold protocolOf
    by_cases hc : (req.port == 443 || req.ssl) = true <;> simp [hc]
  · cases net <;> rfl

/-- C6: a present string `type` whose upper-cased form is none of the
three recognized tags makes the dispatcher return the bare
unsupported-type failure envelope (status and error only, with the
normalized tag in the message) with an empty action trace: no probe
configuration is constructed and no network action happens. -/
theorem c6_unsupported_type_envelope (data : Payload) (os : Oracles) (s : String)
    (hs : getField data "type" = some (.vStr s))
    (h1 : pyUpper s ≠ "HTTP") (h2 : pyUpper s ≠ "IMAP") (h3 : pyUpper s ≠ "SMTP") :
    check_connection data os =
      .envelope [("status", .s "fail"), ("error", .s ("Unsupported type " ++ pyUpper s))] [] := by
  simp [check_connection, getTypeUpper, hs, h1, h2, h3]

/-- C6 witness: the concrete payload with type "ftp" yields the
unsupported-type envelope for "FTP" with an empty trace. -/
theorem c6_witness_ftp :
    getField [("type", Value.vStr "ftp")] "type" = some (.vStr "ftp")
  ∧ check_connection [("type", Value.vStr "ftp")] oracles0 =
      .envelope [("status", .s "fail"), ("error", .s ("Unsupported type " ++ pyUpper "ftp"))] [] :=
  ⟨rfl,
   c6_unsupported_type_envelope [("type", Value.vStr "ftp")] oracles0 "ftp"
     rfl (by decide) (by decide) (by decide)⟩

/-- C7: the dispatcher reads `type` with default "HTTP" when absent and
upper-cases it before matching, so an absent type and every case
variant of "http"/"imap"/"smtp" reach the corresponding probe
branch. -/
theorem c7_dispatch_case_normalization (data : Payload) (os : Oracles) (s : String) :
    (getField data "type" = none → check_connection data os = dispatchHTTP data os.http)
  ∧ (getField data "type" = some (.vStr s) →
      (pyUpper s = "HTTP" → check_connection data os = dispatchHTTP data os.http)
      ∧ (pyUpper s = "IMAP" → check_connection data os = dispatchIMAP data os.imap)
      ∧ (pyUpper s = "SMTP" → check_connection data os = dispatchSMTP data os.smtp)) := by
  constructor
  · intro h
    simp [check_connection, getTypeUpper, h]
  · intro h
    refine ⟨fun hu => ?_, fun hu => ?_, fun hu => ?_⟩ <;>
      simp [check_connection, getTypeUpper, h, hu]

/-- C7 witness: the concrete lowercase tag "imap" dispatches to the
IMAP branch. -/
theorem c7_witness_lowercase_imap :
    getField [("type", Value.vStr "imap"), ("host", Value.vStr "h"), ("port", Value.vInt 143)]
        "type" = some (.vStr "imap")
  ∧ pyUpper "imap" = "IMAP"
  ∧ check_connection [("type", Value.vStr "imap"), ("host", Value.vStr "h"), ("port", Value.vInt 143)]
        oracles0 =
      dispatchIMAP [("type", Value.vStr "imap"), ("host", Value.vStr "h"), ("port", Value.vInt 143)]
        oracles0.imap :=
  ⟨rfl, rfl,
   ((c7_dispatch_case_normalization
       [("type", Value.vStr "imap"), ("host", Value.vStr "h"), ("port", Value.vInt 143)]
       oracles0 "imap").2 rfl).2.1 rfl⟩

/-- C8: every SMTP probe run that reports `status: success` carries
`mode` "SMTPS" when use_tls is set, "SMTP+STARTTLS" when start_tls is
set (use_tls unset), "PLAIN" when both are unset, together with
protocol "smtp", the greeting code, the best-effort-decoded greeting
message and the echoed validate_certs flag. -/
theorem c8_smtp_success_payload (req : CheckRequestSMTP) (net : SmtpOracle)
    (code : Int) (msg : SmtpMsg)
    (hc : net.connect = .ok (code, msg))
    (hs : lookupJ (handle_smtp req net).1 "status" = some (.s "success")) :
    lookupJ (handle_smtp req net).1 "mode" =
      some (.s (if req.use_tls then "SMTPS"
                else if req.start_tls then "SMTP+STARTTLS" else "PLAIN"))
  ∧ lookupJ (handle_smtp req net).1 "protocol" = some (.s "smtp")
  ∧ lookupJ (handle_smtp req net).1 "greeting_code" = some (.i code)
  ∧ lookupJ (handle_smtp req net).1 "greeting_message" = some (.s (smtpMsgDecode msg))
  ∧ lookupJ (handle_smtp req net).1 "validate_certs" = some (.b req.validate_certs) := by
  by_cases hb : (req.use_tls && req.start_tls) = true
  · simp [handle_smtp, hb, lookupJ] at hs
  · rw [Bool.not_eq_true] at hb
    by_cases hst : req.start_tls = true
    · have hu : req.use_tls = false := by
        rw [hst, Bool.and_true] at hb
        exact hb
      rcases hstt : net.starttls with e | u
      · simp [handle_smtp, hu, hc, hst, hstt, lookupJ, failEnv] at hs
      · by_cases hlg : (pyTruthy req.username && pyTruthy req.password) = true
        · rcases hl : net.login with e | u2
          · simp [handle_smtp, hu, hc, hst, hstt, hlg, hl, lookupJ, failEnv] at hs
          · rcases hq : net.quit with e | u3
            · simp [handle_smtp, hu, hc, hst, hstt, hlg, hl, hq, lookupJ, failEnv] at hs
            · simp [handle_smtp, hu, hc, hst, hstt, hlg, hl, hq, lookupJ]
        · rcases hq : net.quit with e | u3
          · simp [handle_smtp, hu, hc, hst, hstt, hlg, hq, lookupJ, failEnv] at hs
          · simp [handle_smtp, hu, hc, hst, hstt, hlg, hq, lookupJ]
    · rw [Bool.not_eq_true] at hst
      by_cases hlg : (pyTruthy req.username && pyTruthy req.password) = true
      · rcases hl : net.login with e | u2
        · simp [handle_smtp, hc, hst, hlg, hl, lookupJ, failEnv] at hs
        · rcases hq : net.quit with e | u3
          · simp [handle_smtp, hc, hst, hlg, hl, hq, lookupJ, failEnv] at hs
          · simp [handle_smtp, hc, hst, hlg, hl, hq, lookupJ]
      · rcases hq : net.quit with e | u3
        · simp [handle_smtp, hc, hst, hlg, hq, lookupJ, failEnv] at hs
        · simp [handle_smtp, hc, hst, hlg, hq, lookupJ]

/-- C8 witness: a concrete STARTTLS-mode probe with an all-successful
oracle reports success with mode "SMTP+STARTTLS", protocol "smtp",
greeting 220 "Hi" and the echoed validate_certs flag. -/
theorem c8_witness_success_payload :
    lookupJ (handle_smtp req0smtp net0smtp).1 "status" = some (.s "success")
  ∧ (lookupJ (handle_smtp req0smtp net0smtp).1 "mode" = some (.s "SMTP+STARTTLS")
     ∧ lookupJ (handle_smtp req0smtp net0smtp).1 "protocol" = some (.s "smtp")
     ∧ lookupJ (handle_smtp req0smtp net0smtp).1 "greeting_code" = some (.i 220)
     ∧ lookupJ (handle_smtp req0smtp net0smtp).1 "greeting_message" = some (.s "Hi")
     ∧ lookupJ (handle_smtp req0smtp net0smtp).1 "validate_certs" = some (.b true)) :=
  ⟨rfl, c8_smtp_success_payload req0smtp net0smtp 220 (.bytes [72, 105]) rfl rfl⟩

/-- C9: outside the mode-conflict case, every TLS context the SMTP
probe builds or hands to connect/STARTTLS is the default verification
context when validate_certs is set, and the relaxed context with
hostname checking off and verify mode CERT_NONE when it is not; the
connect action always carries that context, and so does the STARTTLS
upgrade when it is requested and reached. -/
theorem c9_smtp_tls_context (req : CheckRequestSMTP) (net : SmtpOracle)
    (g : Int × SmtpMsg)
    (hb : (req.use_tls && req.start_tls) = false) :
    (∀ c ∈ ctxsOf (handle_smtp req net).2,
        c = if req.validate_certs then ssl_create_default_context
            else { check_hostname := false, verify_mode := .CERT_NONE })
  ∧ NetEvent.smtpConnect req.host req.port req.use_tls
      (if req.validate_certs then ssl_create_default_context
       else { check_hostname := false, verify_mode := .CERT_NONE }) ∈ (handle_smtp req net).2
  ∧ (req.start_tls = true → net.connect = .ok g →
      NetEvent.smtpStarttls
        (if req.validate_certs then ssl_create_default_context
         else { check_hostname := false, verify_mode := .CERT_NONE }) ∈ (handle_smtp req net).2) := by
  rcases hc : net.connect with e | g2
  · simp [handle_smtp, hb, hc, ctxsOf, ctxOf, List.forall_mem_cons]
  · by_cases hst : req.start_tls = true
    · have hu : req.use_tls = false := by
        rw [hst, Bool.and_true] at hb
        exact hb
      rcases hstt : net.starttls with e | u
      · simp [handle_smtp, hu, hc, hst, hstt, ctxsOf, ctxOf, List.forall_mem_cons]
      · by_cases hlg : (pyTruthy req.username && pyTruthy req.password) = true
        · rcases hl : net.login with e | u2
          · simp [handle_smtp, hu, hc, hst, hstt, hlg, hl, ctxsOf, ctxOf, List.forall_mem_cons]
          · rcases hq : net.quit with e | u3 <;>
              simp [handle_smtp, hu, hc, hst, hstt, hlg, hl, hq, ctxsOf, ctxOf, List.forall_mem_cons]
        · rcases hq : net.quit with e | u3 <;>
            simp [handle_smtp, hu, hc, hst, hstt, hlg, hq, ctxsOf, ctxOf, List.forall_mem_cons]
    · rw [Bool.not_eq_true] at hst
      by_cases hlg : (pyTruthy req.username && pyTruthy req.password) = true
      · rcases hl : net.login with e | u2
        · simp [handle_smtp, hc, hst, hlg, hl, ctxsOf, ctxOf, List.forall_mem_cons]
        · rcases hq : net.quit with e | u3 <;>
            simp [handle_smtp, hc, hst, hlg, hl, hq, ctxsOf, ctxOf, List.forall_mem_cons]
      · rcases hq : net.quit with e | u3 <;>
          simp [handle_smtp, hc, hst, hlg, hq, ctxsOf, ctxOf, List.forall_mem_cons]

/-- C9 witness: the concrete STARTTLS probe with validate_certs off
carries the relaxed context (hostname checking off, CERT_NONE) through
every context-bearing action — three of them: context construction,
connect, STARTTLS. -/
theorem c9_witness_tls_context :
    (req1smtp.use_tls && req1smtp.start_tls) = false
  ∧ ((∀ c ∈ ctxsOf (handle_smtp req1smtp net0smtp).2,
        c = { check_hostname := false, verify_mode := VerifyMode.CERT_NONE })
     ∧ NetEvent.smtpConnect "mail.example.com" 587 false
         { check_hostname := false, verify_mode := VerifyMode.CERT_NONE } ∈
           (handle_smtp req1smtp net0smtp).2
     ∧ (req1smtp.start_tls = true → net0smtp.connect = .ok (220, .bytes [72, 105]) →
         NetEvent.smtpStarttls { check_hostname := false, verify_mode := VerifyMode.CERT_NONE } ∈
           (handle_smtp req1smtp net0smtp).2))
  ∧ ctxsOf (handle_smtp req1smtp net0smtp).2 =
      [{ check_hostname := false, verify_mode := VerifyMode.CERT_NONE },
       { check_hostname := false, verify_mode := VerifyMode.CERT_NONE },
       { check_hostname := false, verify_mode := VerifyMode.CERT_NONE }] :=
  ⟨rfl, c9_smtp_tls_context req1smtp net0smtp (220, .bytes [72, 105]) rfl, rfl⟩

/-- C10: in both the IMAP and the SMTP probe (connect and greeting
succeeding, and STARTTLS succeeding where requested), a login action is
attempted exactly when both username and password are Python-truthy; a
None or empty-string credential makes the conjunction falsy, so an
empty string behaves like an absent credential and authentication is
skipped. -/
theorem c10_login_iff_truthy_credentials (req1 : CheckRequestIMAP) (req2 : CheckRequestSMTP)
    (lg lo : Except String Unit) (g : Int × SmtpMsg) (lg2 q : Except String Unit)
    (hb : (req2.use_tls && req2.start_tls) = false) :
    attemptsLogin (handle_imap req1
        { connect := .ok (), hello := .ok (), login := lg, logout := lo }).2
      = (pyTruthy req1.username && pyTruthy req1.password)
  ∧ attemptsLogin (handle_smtp req2
        { connect := .ok g, starttls := .ok (), login := lg2, quit := q }).2
      = (pyTruthy req2.username && pyTruthy req2.password)
  ∧ pyTruthy (some "") = false
  ∧ pyTruthy none = false := by
  refine ⟨?_, ?_, rfl, rfl⟩
  · by_cases hlg : (pyTruthy req1.username && pyTruthy req1.password) = true
    · rcases lg with e | u <;> simp [handle_imap, hlg, attemptsLogin]
    · rw [Bool.not_eq_true] at hlg
      simp [handle_imap, hlg, attemptsLogin]
  · by_cases hst : req2.start_tls = true
    · have hu : req2.use_tls = false := by
        rw [hst, Bool.and_true] at hb
        exact hb
      by_cases hlg : (pyTruthy req2.username && pyTruthy req2.password) = true
      · rcases hl : lg2 with e | u2
        · simp [handle_smtp, hu, hst, hlg, hl, attemptsLogin]
        · rcases hq : q with e | u3 <;>
            simp [handle_smtp, hu, hst, hlg, hl, hq, attemptsLogin]
      · rw [Bool.not_eq_true] at hlg
        rcases hq : q with e | u3 <;>
          simp [handle_smtp, hu, hst, hlg, hq, attemptsLogin]
    · rw [Bool.not_eq_true] at hst
      by_cases hlg : (pyTruthy req2.username && pyTruthy req2.password) = true
      · rcases hl : lg2 with e | u2
        · simp [handle_smtp, hst, hlg, hl, attemptsLogin]
        · rcases hq : q with e | u3 <;>
            simp [handle_smtp, hst, hlg, hl, hq, attemptsLogin]
      · rw [Bool.not_eq_true] at hlg
        rcases hq : q with e | u3 <;>
          simp [handle_smtp, hst, hlg, hq, attemptsLogin]

/-- C10 witness: a concrete IMAP probe whose username is the empty
string skips login (behaving like an absent credential) while a
concrete SMTP probe with full credentials attempts it. -/
theorem c10_witness_empty_credentials :
    (req2c10.use_tls && req2c10.start_tls) = false
  ∧ (attemptsLogin (handle_imap req1c10
         { connect := .ok (), hello := .ok (), login := .ok (), logout := .ok () }).2
       = (pyTruthy req1c10.username && pyTruthy req1c10.password)
     ∧ attemptsLogin (handle_smtp req2c10
         { connect := .ok (220, .bytes [72, 105]), starttls := .ok (), login := .ok (), quit := .ok () }).2
       = (pyTruthy req2c10.username && pyTruthy req2c10.password)
     ∧ pyTruthy (some "") = false
     ∧ pyTruthy none = false)
  ∧ attemptsLogin (handle_imap req1c10
       { connect := .ok (), hello := .ok (), login := .ok (), logout := .ok () }).2 = false
  ∧ attemptsLogin (handle_smtp req2c10
       { connect := .ok (220, .bytes [72, 105]), starttls := .ok (), login := .ok (), quit := .ok () }).2 = true :=
  ⟨rfl,
   c10_login_iff_truthy_credentials req1c10 req2c10 (.ok ()) (.ok ())
     (220, .bytes [72, 105]) (.ok ()) (.ok ()) rfl,
   rfl, rfl⟩

end NetAccess
